import Mathlib

/-!
# Verification of the Genfive automobile negotiation orchestrator

Shallow embedding of the negotiation round state machine, offer creation
and market-data aggregation logic of `negotiation/orchestration.py`,
`negotiation/scrapers.py` and the Django models in `negotiation/models.py`.

Conventions:
* Python `Decimal` / `float` money values are modelled as exact rationals `ℚ`.
* JSON-decoded agent payloads (the advisor's `process_round` result, the
  offer structurer's parsed offers) are modelled by the inductive `JVal`;
  dictionaries are association lists with first-match lookup.
* Django ORM writes commit immediately (`objects.create`), while in-memory
  mutations of a model instance reach the database only at `.save()`.  The
  embedding therefore threads an explicit committed state and injects
  persistence outcomes through an environment record.
-/

namespace Genfive

/-- A JSON value as produced by `json.loads` on agent responses. -/
inductive JVal where
  | jnull : JVal
  | jbool : Bool → JVal
  | jnum  : ℚ → JVal
  | jstr  : String → JVal
  | jobj  : List (String × JVal) → JVal
  | jarr  : List JVal → JVal

/-- First-match lookup in a JSON object, `d[k]` presence included
(models Python `dict.get(k)` returning `None` on absence as `none`). -/
def jLookup (fields : List (String × JVal)) (k : String) : Option JVal :=
  match fields with
  | [] => none
  | (k', v) :: rest => if k' = k then some v else jLookup rest k

/-- Python `d.get(k, default)`. -/
def jGetD (fields : List (String × JVal)) (k : String) (default : JVal) : JVal :=
  (jLookup fields k).getD default

/-- Python truthiness of a JSON-decoded value. -/
def truthy : JVal → Bool
  | .jnull => false
  | .jbool b => b
  | .jnum q => decide (q ≠ 0)
  | .jstr s => !(s.isEmpty)
  | .jobj l => !(l.isEmpty)
  | .jarr l => !(l.isEmpty)

/-- Exceptions the orchestration code can raise or propagate. -/
inductive PyErr where
  | doesNotExist : PyErr
  | valueError : String → PyErr
  | invalidOperation : PyErr
  | attributeError : String → PyErr
  | keyError : String → PyErr
  | dbError : String → PyErr
deriving DecidableEq

/-- Value of a digit string read in base 10. -/
def digitsToNat (cs : List Char) : Nat :=
  cs.foldl (fun a c => 10 * a + (c.toNat - 48)) 0

/-- Parse of the plain decimal-numeral fragment accepted by Python
`Decimal(s)`: optional sign, digits, optional decimal point.  Strings
outside this fragment (the words `True`, `None`, arbitrary text) are
rejected, as `Decimal` rejects them with `InvalidOperation`. -/
def decParse (s : String) : Option ℚ :=
  let cs := s.toList
  let body := match cs with
    | '-' :: rest => rest
    | '+' :: rest => rest
    | _ => cs
  let sgn : ℚ := match cs with
    | '-' :: _ => -1
    | _ => 1
  let ip := body.takeWhile Char.isDigit
  let rest := body.dropWhile Char.isDigit
  match rest with
  | [] => if ip.isEmpty then none else some (sgn * (digitsToNat ip : ℚ))
  | '.' :: fp =>
    if fp.all Char.isDigit && !(ip.isEmpty && fp.isEmpty) then
      some (sgn * ((digitsToNat ip : ℚ) + (digitsToNat fp : ℚ) / (10 : ℚ) ^ fp.length))
    else none
  | _ => none

/-- Python `Decimal(str(v))` on a JSON-decoded value `v`: numbers convert
exactly, numeric strings parse, everything else (`None`, booleans, lists,
dicts, non-numeric strings) raises `InvalidOperation`. -/
def pyDecimal : JVal → Except PyErr ℚ
  | .jnum q => .ok q
  | .jstr s =>
    match decParse s with
    | some q => .ok q
    | none => .error .invalidOperation
  | _ => .error .invalidOperation

/-! ## Data model (negotiation/models.py) -/

/-- The persisted fields of `Negotiation` relevant to the orchestrator
(`models.py`, class `Negotiation`).  Django defaults: `status='initiated'`,
`negotiation_rounds=0`, `max_rounds=10`.  Timestamps are abstracted to an
externally supplied clock value `ℕ`. -/
structure Negotiation where
  status : String
  negotiation_rounds : ℕ
  max_rounds : ℕ
  trade_in_offered_value : Option ℚ
  final_price : Option ℚ
  margin_achieved : Option ℚ
  ended_at : Option ℕ
deriving DecidableEq

/-- A persisted `NegotiationRound` row (`models.py`, class
`NegotiationRound`).  `agent_proposal` and `agent_reasoning` are stored
verbatim from the advisor's JSON result. -/
structure NegotiationRound where
  round_number : ℕ
  agent_proposal : JVal
  agent_reasoning : JVal
  client_feedback : String
  round_status : String

/-- A persisted `Offer` row (`models.py`, class `Offer`), restricted to the
fields `_create_initial_offer` populates.  `duration_months`,
`warranty_months`, the benefit flags and `justification` are copied from
the structurer's JSON without coercion, so they stay `JVal`; note that
`Offer.objects.create` does not run the `duration_months` field validators. -/
structure Offer where
  offer_type : JVal
  trade_in_value : ℚ
  purchase_price : Option ℚ
  monthly_payment : Option ℚ
  duration_months : JVal
  total_cost : ℚ
  warranty_months : JVal
  maintenance_included : JVal
  insurance_included : JVal
  justification : JVal
  confidence_score : ℚ

/-- The committed database state of one negotiation session: the
`Negotiation` row plus its `offers` and `rounds` rows in creation order
(`order_by('-created_at').first()` is the last element of `offers`). -/
structure SessState where
  neg : Negotiation
  offers : List Offer
  rounds : List NegotiationRound

/-! ## executeRound (orchestration.py, execute_negotiation_round) -/

/-- Outcome of `NegotiationAgent.process_round` as seen by the orchestrator:
either a JSON object (possibly the `{"raw_result": ...}` wrapper) or an
exception escaping the invocation. -/
def AdvisorOutcome : Type := Except PyErr (List (String × JVal))

/-- Effectful summary of `_create_initial_offer` as used from
`execute_negotiation_round` when the session has no offer yet: on success
the returned offer has also been committed by `Offer.objects.create`; on
failure (missing target vehicle, empty generation, coercion error) nothing
is committed.  The detailed definition `createInitialOffer` below refines
this for the offer-creation claims. -/
def InitOfferOutcome : Type := Except PyErr Offer

/-- Injected outcomes of the two persistence points inside
`execute_negotiation_round`: `NegotiationRound.objects.create` and the
final `negotiation.save()`.  `none` means the write succeeds. -/
structure PersistEnv where
  roundCreate : Option PyErr
  sessionSave : Option PyErr

/-- The all-writes-succeed persistence environment. -/
def reliableEnv : PersistEnv := { roundCreate := none, sessionSave := none }

/-- The body of `execute_negotiation_round` from the `process_round` call
onward, given the committed state (current offer already present) and the
in-memory negotiation `neg1` with the incremented round counter. -/
def executeRoundCore (st : SessState) (neg1 : Negotiation)
    (client_feedback : String) (advisor : AdvisorOutcome)
    (env : PersistEnv) (now : ℕ) :
    SessState × Except PyErr (List (String × JVal)) :=
  match advisor with
  | .error e => (st, .error e)
  | .ok rr =>
    match env.roundCreate with
    | some e => (st, .error e)
    | none =>
      -- NegotiationRound.objects.create(...)  (committed immediately)
      let record : NegotiationRound :=
        { round_number := neg1.negotiation_rounds
          agent_proposal := jGetD rr "proposed_offer" (.jobj [])
          agent_reasoning := jGetD rr "reasoning" (.jstr "")
          client_feedback := client_feedback
          round_status := "ongoing" }
      let st1 := { st with rounds := st.rounds ++ [record] }
      -- if round_result.get('should_conclude', False): ...
      let negFinal : Except PyErr Negotiation :=
        if truthy (jGetD rr "should_conclude" (.jbool false)) then
          match pyDecimal (jGetD rr "final_price" (.jnum 0)) with
          | .error e => .error e
          | .ok fp =>
            match pyDecimal (jGetD rr "margin" (.jnum 0)) with
            | .error e => .error e
            | .ok mg =>
              .ok { neg1 with
                      status := "concluded"
                      final_price := some fp
                      margin_achieved := some mg
                      ended_at := some now }
        else .ok neg1
      match negFinal with
      | .error e => (st1, .error e)
      | .ok neg2 =>
        match env.sessionSave with
        | some e => (st1, .error e)
        | none =>
          ({ st1 with neg := neg2 },
           .ok [("round_number", .jnum (neg2.negotiation_rounds : ℚ)),
                ("proposed_offer", jGetD rr "proposed_offer" (.jobj [])),
                ("status", .jstr neg2.status),
                ("should_continue",
                  .jbool (!truthy (jGetD rr "should_conclude" (.jbool false)))),
                ("confidence", jGetD rr "confidence_score" (.jnum 0))])

/-- `NegotiationOrchestrator.execute_negotiation_round` (orchestration.py
lines 104–165), as a function of the committed state, the feedback text,
the environment outcomes and the clock.  Returns the committed state after
the call and either the result dictionary or the propagated exception.

Faithful points: the max-rounds guard returns `{"status":
"max_rounds_reached"}` before any mutation; the round-counter increment is
in-memory and reaches the database only at the final `save()`;
`NegotiationRound.objects.create` commits its row immediately, before the
conclusion check and the `save()`; `Decimal(str(...))` coercion of
`final_price`/`margin` can raise after the round row is committed; the
exception is re-raised unchanged. -/
def executeRound (st : SessState) (client_feedback : String)
    (initOff : InitOfferOutcome) (advisor : AdvisorOutcome)
    (env : PersistEnv) (now : ℕ) :
    SessState × Except PyErr (List (String × JVal)) :=
  let neg := st.neg
  if neg.negotiation_rounds ≥ neg.max_rounds then
    (st, .ok [("status", .jstr "max_rounds_reached")])
  else
    -- negotiation.negotiation_rounds += 1 (in-memory)
    let neg1 := { neg with negotiation_rounds := neg.negotiation_rounds + 1 }
    -- current_offer = negotiation.offers.order_by('-created_at').first()
    --                 or _create_initial_offer(negotiation)
    match st.offers.getLast? with
    | none =>
      match initOff with
      | .error e => (st, .error e)
      | .ok o => executeRoundCore { st with offers := st.offers ++ [o] }
          neg1 client_feedback advisor env now
    | some _ => executeRoundCore st neg1 client_feedback advisor env now

/-! ## Market data (scrapers.py and orchestration.py) -/

/-- The fields of `Vehicle` (`models.py`) used by
`_get_or_scrape_market_data` and `_create_initial_offer`. -/
structure Vehicle where
  make : String
  model : String
  year : ℤ
  fuel_type : String
  current_market_value : ℚ

/-- A cached `MarketData` row (`models.py`, class `MarketData`). -/
structure MarketData where
  make : String
  model : String
  year : ℤ
  fuel_type : String
  average_price : ℚ
  price_min : ℚ
  price_max : ℚ
  mileage_average : ℤ
  listings_count : ℤ

/-- `NegotiationOrchestrator._market_data_to_dict` (orchestration.py lines
342–350): note the bound keys are `price_min` / `price_max`. -/
def marketDataToDict (m : MarketData) : List (String × JVal) :=
  [("average_price", .jnum m.average_price),
   ("price_min", .jnum m.price_min),
   ("price_max", .jnum m.price_max),
   ("listings_count", .jnum (m.listings_count : ℚ)),
   ("mileage_average", .jnum (m.mileage_average : ℚ))]

/-- The dictionary returned by one scraper source when it succeeds
(scrapers.py, `scrape_leboncoin` / `scrape_webmoteurs` / `scrape_caradisiac`
/ `scrape_argus`).  Each field is optional because `scrape_argus` reports
only `average_price`, and `aggregate_market_data` tests key presence. -/
structure ScrapedSource where
  average_price : Option ℚ
  min_price : Option ℚ
  max_price : Option ℚ
  listings_count : Option ℕ

/-- The `aggregate` entry of `MarketDataScraper.aggregate_market_data`
(scrapers.py lines 216–257).  `sources` lists the four scrape results in
order (`none` = the source returned `None`).  The surrounding `results`
dict always holds `make`/`model`/`year`/`fuel_type`/`sources` and is
therefore always truthy; the orchestrator's check
`scraped_data and 'aggregate' in scraped_data` reduces to this option
being `some`.  Faithful point: `prices` collects the *average* price of
each succeeding source, and min/max of the aggregate are the min/max of
those averages. -/
def aggregateMarketData (sources : List (Option ScrapedSource)) :
    Option (List (String × JVal)) :=
  let valid := sources.filterMap id
  let prices := valid.filterMap (fun s => s.average_price)
  match prices with
  | [] => none
  | p :: ps =>
    some [("average_price", .jnum ((p :: ps).sum / ((p :: ps).length : ℚ))),
          ("min_price", .jnum (ps.foldl min p)),
          ("max_price", .jnum (ps.foldl max p)),
          ("sources_count", .jnum (valid.length : ℚ))]

/-- Python `d[k]` on a JSON object: raises `KeyError` when absent. -/
def pyDictIndex (d : List (String × JVal)) (k : String) : Except PyErr JVal :=
  match jLookup d k with
  | some v => .ok v
  | none => .error (.keyError k)

/-- Floor coercion of a JSON number into an `IntegerField` column
(unreachable in `_get_or_scrape_market_data`: the aggregate dict never
carries the key this is applied to). -/
def jNumToInt : JVal → ℤ
  | .jnum q => ⌊q⌋
  | _ => 0

/-- The heuristic fallback dictionary `_get_or_scrape_market_data` returns
when scraping produced no aggregate (orchestration.py lines 267–273):
`Decimal('0.9')` and `Decimal('1.1')` are the exact rationals 9/10 and
11/10. -/
def fallbackMarketDict (cmv : ℚ) : List (String × JVal) :=
  [("average_price", .jnum cmv),
   ("min_price", .jnum (cmv * (9 / 10 : ℚ))),
   ("max_price", .jnum (cmv * (11 / 10 : ℚ))),
   ("listings_count", .jnum 0)]

/-- The scrape-and-upsert tail of `_get_or_scrape_market_data` (the code
after the freshness check). -/
def scrapeAndCache (vehicle : Vehicle)
    (sources : List (Option ScrapedSource)) :
    Except PyErr (List (String × JVal)) :=
  match aggregateMarketData sources with
  | some agg => do
    let ap ← pyDictIndex agg "average_price"
    let apq ← pyDecimal ap
    let mn ← pyDictIndex agg "min_price"
    let mnq ← pyDecimal mn
    let mx ← pyDictIndex agg "max_price"
    let mxq ← pyDecimal mx
    let lc ← pyDictIndex agg "listings_count"
    let row : MarketData :=
      { make := vehicle.make, model := vehicle.model, year := vehicle.year
        fuel_type := vehicle.fuel_type
        average_price := apq, price_min := mnq, price_max := mxq
        mileage_average := 0, listings_count := jNumToInt lc }
    .ok (marketDataToDict row)
  | none => .ok (fallbackMarketDict vehicle.current_market_value)

/-- `NegotiationOrchestrator._get_or_scrape_market_data` (orchestration.py
lines 224–273).  `cached` is the first `MarketData` row matching the
vehicle's key tuple and `cacheAgeDays` its age in whole days
(`(datetime.now() - last_updated).days`); `sources` feeds the scraper.
The `update_or_create` branch evaluates its `defaults` dictionary left to
right, coercing `agg['average_price']`, `agg['min_price']`,
`agg['max_price']` through `Decimal(str(...))` and then reading
`agg['listings_count']` — which raises `KeyError` because the aggregate
dict carries `sources_count` instead. -/
def getOrScrapeMarketData (vehicle : Vehicle) (cached : Option MarketData)
    (cacheAgeDays : ℕ) (sources : List (Option ScrapedSource)) :
    Except PyErr (List (String × JVal)) :=
  match cached with
  | some m =>
    if cacheAgeDays < 1 then .ok (marketDataToDict m)
    else scrapeAndCache vehicle sources
  | none => scrapeAndCache vehicle sources

/-! ## Initial offer creation (orchestration.py, _create_initial_offer) -/

/-- `NegotiationOrchestrator._create_initial_offer` (orchestration.py lines
167–222), as a function of the session's target vehicle and trade-in
value, the market-data inputs (the fetched dictionary is discarded by the
source, but its exceptions propagate), and the parsed `offers` list the
structurer returned (`offer_data.get('offers', [])`).  Faithful points:
only the head of a non-empty list is consumed; `purchase_price` is always
coerced with default 0; `monthly_payment` is `None` whenever the raw field
is falsy; `duration_months` is copied raw — `Offer.objects.create` runs no
validators. -/
def createInitialOffer (target_vehicle : Option Vehicle)
    (trade_in_offered_value : Option ℚ)
    (cached : Option MarketData) (cacheAgeDays : ℕ)
    (sources : List (Option ScrapedSource))
    (structurerOffers : List JVal) : Except PyErr Offer :=
  match target_vehicle with
  | none => .error (.valueError "Target vehicle not set for negotiation")
  | some tv =>
    match getOrScrapeMarketData tv cached cacheAgeDays sources with
    | .error e => .error e
    | .ok _ =>
      match structurerOffers with
      | [] => .error (.valueError "No offers could be generated")
      | best :: _ =>
        match best with
        | .jobj fields => do
          let pp ← pyDecimal (jGetD fields "purchase_price" (.jnum 0))
          let mp ←
            if truthy (jGetD fields "monthly_payment" .jnull) then
              match pyDecimal (jGetD fields "monthly_payment" .jnull) with
              | .error e => .error e
              | .ok q => .ok (some q)
            else .ok (none : Option ℚ)
          let tc ← pyDecimal (jGetD fields "total_cost" (.jnum 0))
          let cs ← pyDecimal (jGetD fields "confidence_score" (.jnum 0))
          .ok { offer_type := jGetD fields "offer_type" (.jstr "achat")
                trade_in_value := trade_in_offered_value.getD 0
                purchase_price := some pp
                monthly_payment := mp
                duration_months := jGetD fields "duration_months" .jnull
                total_cost := tc
                warranty_months := jGetD fields "warranty_months" (.jnum 12)
                maintenance_included := jGetD fields "maintenance_included" (.jbool false)
                insurance_included := jGetD fields "insurance_included" (.jbool false)
                justification := jGetD fields "reasoning" (.jstr "")
                confidence_score := cs }
        | _ => .error (.attributeError "get")

/-! ## Initiation and reachability -/

/-- The session state `initiate_negotiation` (orchestration.py lines
34–102) commits for the claims' fields: `Negotiation.objects.create` uses
the model defaults `negotiation_rounds=0`, `max_rounds=10`, and the final
`save()` sets status `in_progress`; no offers or round records exist yet.
Market analysis, strategy payload and vehicle selection do not touch these
fields. -/
def initiateNegotiation (trade_in_offered_value : Option ℚ) : SessState :=
  { neg := { status := "in_progress"
             negotiation_rounds := 0
             max_rounds := 10
             trade_in_offered_value := trade_in_offered_value
             final_price := none
             margin_achieved := none
             ended_at := none }
    offers := []
    rounds := [] }

/-- One `execute_negotiation_round` call that returned a result (did not
raise): the committed-state transition of a successful call, under any
environment. -/
def SuccessStep (s s' : SessState) : Prop :=
  ∃ (fb : String) (io : InitOfferOutcome) (adv : AdvisorOutcome)
    (env : PersistEnv) (now : ℕ) (r : List (String × JVal)),
    executeRound s fb io adv env now = (s', .ok r)

/-- States reachable from a freshly initiated session through calls that
all returned results. -/
inductive ReachableOk : SessState → Prop where
  | init (tiv : Option ℚ) : ReachableOk (initiateNegotiation tiv)
  | step {s s' : SessState} : ReachableOk s → SuccessStep s s' → ReachableOk s'

/-! ## Helper lemmas -/

lemma aggregateMarketData_eq_none_of_all_fail
    {sources : List (Option ScrapedSource)}
    (h : ∀ s ∈ sources, s = none) : aggregateMarketData sources = none := by
  have hv : sources.filterMap id = [] :=
    List.filterMap_eq_nil_iff.mpr (by simpa using h)
  simp [aggregateMarketData, hv]

/-! ## Claim theorems -/

/-- C7: whenever zero external sources succeed and no fresh cache entry
exists, `_get_or_scrape_market_data` returns the heuristic fallback
snapshot: average price = the vehicle's stored `current_market_value`,
min = 0.9 × that value, max = 1.1 × that value, `listings_count` = 0. -/
theorem c7_fallback_snapshot (v : Vehicle) (cached : Option MarketData)
    (age : ℕ) (sources : List (Option ScrapedSource))
    (hsrc : ∀ s ∈ sources, s = none)
    (hcache : cached = none ∨ 1 ≤ age) :
    getOrScrapeMarketData v cached age sources
        = .ok (fallbackMarketDict v.current_market_value)
    ∧ jLookup (fallbackMarketDict v.current_market_value) "average_price"
        = some (.jnum v.current_market_value)
    ∧ jLookup (fallbackMarketDict v.current_market_value) "min_price"
        = some (.jnum (v.current_market_value * (9 / 10 : ℚ)))
    ∧ jLookup (fallbackMarketDict v.current_market_value) "max_price"
        = some (.jnum (v.current_market_value * (11 / 10 : ℚ)))
    ∧ jLookup (fallbackMarketDict v.current_market_value) "listings_count"
        = some (.jnum 0) := by
  have hagg := aggregateMarketData_eq_none_of_all_fail hsrc
  have hsc : scrapeAndCache v sources
      = .ok (fallbackMarketDict v.current_market_value) := by
    simp [scrapeAndCache, hagg]
  refine ⟨?_, rfl, rfl, rfl, rfl⟩
  cases cached with
  | none => simpa [getOrScrapeMarketData] using hsc
  | some m =>
    rcases hcache with h | h
    · exact Option.noConfusion h
    · have hage : ¬ age < 1 := by omega
      simp [getOrScrapeMarketData, hage, hsc]

/-- Witness for `c7_fallback_snapshot` at a concrete vehicle, an empty
cache and four failed sources. -/
theorem c7_fallback_snapshot_witness :
    (∀ s ∈ ([none, none, none, none] : List (Option ScrapedSource)), s = none)
    ∧ ((none : Option MarketData) = none ∨ 1 ≤ 0)
    ∧ getOrScrapeMarketData ⟨"Renault", "Clio", 2020, "essence", 10000⟩
        none 0 [none, none, none, none] = .ok (fallbackMarketDict 10000) :=
  ⟨by simp, Or.inl rfl,
   (c7_fallback_snapshot ⟨"Renault", "Clio", 2020, "essence", 10000⟩ none 0
      [none, none, none, none] (by simp) (Or.inl rfl)).1⟩

/-- C8: a call to `execute_negotiation_round` on a session whose round
counter has reached `max_rounds` returns the exhaustion result without
touching the committed state — regardless of feedback, offer synthesis,
advisor behaviour or persistence environment — so repeated calls return
the identical result. -/
theorem c8_exhaustion_guard (s : SessState) (fb : String)
    (io : InitOfferOutcome) (adv : AdvisorOutcome) (env : PersistEnv)
    (now : ℕ)
    (h : s.neg.negotiation_rounds ≥ s.neg.max_rounds) :
    executeRound s fb io adv env now
      = (s, .ok [("status", .jstr "max_rounds_reached")]) := by
  simp [executeRound, h]

/-- Witness for `c8_exhaustion_guard` on a session at round 10 of 10. -/
theorem c8_exhaustion_guard_witness :
    ((⟨⟨"in_progress", 10, 10, none, none, none, none⟩, [], []⟩ :
        SessState).neg.negotiation_rounds
       ≥ (⟨⟨"in_progress", 10, 10, none, none, none, none⟩, [], []⟩ :
        SessState).neg.max_rounds)
    ∧ executeRound ⟨⟨"in_progress", 10, 10, none, none, none, none⟩, [], []⟩
        "stop" (.error .doesNotExist) (.ok []) reliableEnv 3
      = (⟨⟨"in_progress", 10, 10, none, none, none, none⟩, [], []⟩,
         .ok [("status", .jstr "max_rounds_reached")]) :=
  ⟨by decide,
   c8_exhaustion_guard ⟨⟨"in_progress", 10, 10, none, none, none, none⟩, [], []⟩
     "stop" (.error .doesNotExist) (.ok []) reliableEnv 3 (by decide)⟩

/-- C9: `_create_initial_offer` consumes exactly the first element of a
non-empty generated offers list — the result is identical to running it on
the singleton list holding that first element, so later elements and their
confidence scores are irrelevant. -/
theorem c9_first_offer_only (tv : Option Vehicle) (tiv : Option ℚ)
    (cached : Option MarketData) (age : ℕ)
    (sources : List (Option ScrapedSource)) (best : JVal)
    (rest : List JVal) :
    createInitialOffer tv tiv cached age sources (best :: rest)
      = createInitialOffer tv tiv cached age sources [best] := rfl

/-- C10: the market-data dictionary is not key-uniform — a dictionary built
from a `MarketData` row (the fresh-cache path, shown, and the would-be
freshly-scraped path both go through `_market_data_to_dict`) binds
`price_min`/`price_max` and lacks `min_price`/`max_price`, while the
zero-sources fallback dictionary binds `min_price`/`max_price` and lacks
`price_min`/`price_max`. -/
theorem c10_key_mismatch (m : MarketData) (cmv : ℚ) (v : Vehicle)
    (sources : List (Option ScrapedSource)) :
    getOrScrapeMarketData v (some m) 0 sources = .ok (marketDataToDict m)
    ∧ jLookup (marketDataToDict m) "price_min" = some (.jnum m.price_min)
    ∧ jLookup (marketDataToDict m) "price_max" = some (.jnum m.price_max)
    ∧ jLookup (marketDataToDict m) "min_price" = none
    ∧ jLookup (marketDataToDict m) "max_price" = none
    ∧ jLookup (fallbackMarketDict cmv) "min_price"
        = some (.jnum (cmv * (9 / 10 : ℚ)))
    ∧ jLookup (fallbackMarketDict cmv) "max_price"
        = some (.jnum (cmv * (11 / 10 : ℚ)))
    ∧ jLookup (fallbackMarketDict cmv) "price_min" = none
    ∧ jLookup (fallbackMarketDict cmv) "price_max" = none :=
  ⟨rfl, rfl, rfl, rfl, rfl, rfl, rfl, rfl, rfl⟩

/-- C5 counterexample: with two succeeding sources (averages 100 and 200,
min prices 50 and 160, max prices 150 and 240) the aggregate's min price
is 100 — the minimum of the source *average* prices — not the arithmetic
mean (50+160)/2 = 105 of the source min prices, and likewise for max; and
instead of an upsert into the cache, the refresh raises
`KeyError('listings_count')`, because the aggregate dict carries
`sources_count` under a different key than `update_or_create` reads. -/
theorem c5_counterexample :
    aggregateMarketData
        [some ⟨some 100, some 50, some 150, some 3⟩,
         some ⟨some 200, some 160, some 240, some 5⟩]
      = some [("average_price", .jnum 150), ("min_price", .jnum 100),
              ("max_price", .jnum 200), ("sources_count", .jnum 2)]
    ∧ (100 : ℚ) ≠ (50 + 160) / 2
    ∧ (200 : ℚ) ≠ (150 + 240) / 2
    ∧ getOrScrapeMarketData ⟨"Renault", "Clio", 2020, "essence", 10000⟩ none 5
        [some ⟨some 100, some 50, some 150, some 3⟩,
         some ⟨some 200, some 160, some 240, some 5⟩]
      = .error (.keyError "listings_count") := by
  refine ⟨?_, by norm_num, by norm_num, rfl⟩
  simp [aggregateMarketData]
  norm_num

/-- C5 amended: when at least one source succeeds with an average price,
the aggregate's average price is the arithmetic mean of the succeeding
sources' average prices, while its min and max are the minimum and maximum
of those same average prices (the sources' own min/max prices are
ignored); the aggregate carries no `listings_count` key, so the
orchestrator's cache write raises `KeyError('listings_count')` instead of
upserting, whenever the cache entry is absent or stale. -/
theorem c5_amended (cached : Option MarketData) (age : ℕ) (v : Vehicle)
    (sources : List (Option ScrapedSource)) (p : ℚ) (ps : List ℚ)
    (hp : (sources.filterMap id).filterMap (fun s => s.average_price) = p :: ps)
    (hcache : cached = none ∨ 1 ≤ age) :
    (∃ agg, aggregateMarketData sources = some agg
      ∧ jLookup agg "average_price"
          = some (.jnum ((p :: ps).sum / ((p :: ps).length : ℚ)))
      ∧ jLookup agg "min_price" = some (.jnum (ps.foldl min p))
      ∧ jLookup agg "max_price" = some (.jnum (ps.foldl max p))
      ∧ jLookup agg "listings_count" = none)
    ∧ getOrScrapeMarketData v cached age sources
        = .error (.keyError "listings_count") := by
  have h1 : aggregateMarketData sources
      = some [("average_price", .jnum ((p :: ps).sum / ((p :: ps).length : ℚ))),
              ("min_price", .jnum (ps.foldl min p)),
              ("max_price", .jnum (ps.foldl max p)),
              ("sources_count", .jnum ((sources.filterMap id).length : ℚ))] := by
    simp [aggregateMarketData, hp]
  have h2 : scrapeAndCache v sources = .error (.keyError "listings_count") := by
    simp [scrapeAndCache, h1, pyDictIndex, jLookup, pyDecimal, bind,
      Except.bind]
  refine ⟨⟨_, h1, by simp [jLookup], by simp [jLookup], by simp [jLookup],
    by simp [jLookup]⟩, ?_⟩
  cases cached with
  | none => simpa [getOrScrapeMarketData] using h2
  | some m =>
    rcases hcache with h | h
    · exact Option.noConfusion h
    · have hage : ¬ age < 1 := by omega
      simp [getOrScrapeMarketData, hage, h2]

/-- Witness for `c5_amended`: two concrete succeeding sources, empty
cache. -/
theorem c5_amended_witness :
    (([some (⟨some 100, some 50, some 150, some 3⟩ : ScrapedSource),
       some ⟨some 200, some 160, some 240, some 5⟩].filterMap id).filterMap
        (fun s => s.average_price) = 100 :: [200])
    ∧ ((none : Option MarketData) = none ∨ 1 ≤ 5)
    ∧ getOrScrapeMarketData ⟨"Peugeot", "208", 2019, "essence", 9000⟩ none 5
        [some ⟨some 100, some 50, some 150, some 3⟩,
         some ⟨some 200, some 160, some 240, some 5⟩]
      = .error (.keyError "listings_count") :=
  ⟨by simp, Or.inl rfl,
   (c5_amended none 5 ⟨"Peugeot", "208", 2019, "essence", 9000⟩
      [some ⟨some 100, some 50, some 150, some 3⟩,
       some ⟨some 200, some 160, some 240, some 5⟩] 100 [200]
      (by simp) (Or.inl rfl)).2⟩

/-- C6 counterexample: from a generated offer of the financed kind `lld`
that omits `monthly_payment` and carries `duration_months` = 200, the
engine creates and persists an offer whose `monthly_payment` is null,
whose `duration_months` is 200 (outside [1,84] — `objects.create` runs no
validators), and whose `purchase_price` is populated (with the default 0)
despite the financed kind — falsifying the claimed invariants. -/
theorem c6_counterexample :
    createInitialOffer (some ⟨"Renault", "Clio", 2020, "essence", 10000⟩) none
        none 0 []
        [.jobj [("offer_type", .jstr "lld"), ("duration_months", .jnum 200)]]
      = .ok { offer_type := .jstr "lld", trade_in_value := 0,
              purchase_price := some 0, monthly_payment := none,
              duration_months := .jnum 200, total_cost := 0,
              warranty_months := .jnum 12,
              maintenance_included := .jbool false,
              insurance_included := .jbool false,
              justification := .jstr "", confidence_score := 0 } := rfl

/-- C6 amended: every offer the engine creates has a non-null
`purchase_price` (coerced with default 0) regardless of kind; its
`monthly_payment` is non-null exactly when the generator's raw
`monthly_payment` field is truthy, regardless of kind; and its
`duration_months` is copied verbatim from the generator without any range
validation — no kind-dependent exclusivity between the purchase-price and
monthly-payment term sets is enforced. -/
theorem c6_amended (tv : Vehicle) (tiv : Option ℚ) (cached : Option MarketData)
    (age : ℕ) (sources : List (Option ScrapedSource))
    (fields : List (String × JVal)) (rest : List JVal) (o : Offer)
    (h : createInitialOffer (some tv) tiv cached age sources
          (.jobj fields :: rest) = .ok o) :
    o.purchase_price.isSome = true
    ∧ o.monthly_payment.isSome = truthy (jGetD fields "monthly_payment" .jnull)
    ∧ o.duration_months = jGetD fields "duration_months" .jnull
    ∧ o.offer_type = jGetD fields "offer_type" (.jstr "achat") := by
  unfold createInitialOffer at h
  split at h
  · exact absurd h (by simp)
  · simp only [bind, Except.bind] at h
    repeat' split at h
    all_goals first
      | (injection h with h1
         subst h1
         refine ⟨rfl, ?_, rfl, rfl⟩
         simp_all)
      | exact absurd h (by simp)

/-- Witness for `c6_amended` on a concrete lease offer with a truthy
monthly payment. -/
theorem c6_amended_witness :
    createInitialOffer (some ⟨"Renault", "Megane", 2021, "diesel", 20000⟩) none
        none 0 []
        [.jobj [("offer_type", .jstr "lld"), ("monthly_payment", .jnum 450),
                ("duration_months", .jnum 36)]]
      = .ok { offer_type := .jstr "lld", trade_in_value := 0,
              purchase_price := some 0, monthly_payment := some 450,
              duration_months := .jnum 36, total_cost := 0,
              warranty_months := .jnum 12,
              maintenance_included := .jbool false,
              insurance_included := .jbool false,
              justification := .jstr "", confidence_score := 0 }
    ∧ ((some (450 : ℚ)).isSome
        = truthy (jGetD [("offer_type", .jstr "lld"),
            ("monthly_payment", .jnum 450), ("duration_months", .jnum 36)]
            "monthly_payment" .jnull)
       ∧ (.jnum 36 : JVal) = jGetD [("offer_type", .jstr "lld"),
            ("monthly_payment", .jnum 450), ("duration_months", .jnum 36)]
            "duration_months" .jnull) :=
  ⟨rfl,
   (c6_amended ⟨"Renault", "Megane", 2021, "diesel", 20000⟩ none none 0 []
      [("offer_type", .jstr "lld"), ("monthly_payment", .jnum 450),
       ("duration_months", .jnum 36)] [] _ rfl).2.1,
   (c6_amended ⟨"Renault", "Megane", 2021, "diesel", 20000⟩ none none 0 []
      [("offer_type", .jstr "lld"), ("monthly_payment", .jnum 450),
       ("duration_months", .jnum 36)] [] _ rfl).2.2.1⟩

/-- C1 counterexample: a concrete run in which the final `negotiation.save()`
fails after `NegotiationRound.objects.create` succeeded.  The committed
state after the call holds the new round record (`rounds` grew from 0 to 1
entries) while the session row is unchanged (counter still 0) — a partial
commit — and the propagated error is the raw database error, carrying no
round number. -/
theorem c1_counterexample :
    executeRound ⟨⟨"in_progress", 0, 10, none, none, none, none⟩,
        [⟨.jstr "achat", 0, some 20000, none, .jnull, 20000, .jnum 12,
          .jbool false, .jbool false, .jstr "", 80⟩], []⟩
      "too expensive" (.error .doesNotExist) (.ok [])
      { roundCreate := none, sessionSave := some (.dbError "disk full") } 7
    = (⟨⟨"in_progress", 0, 10, none, none, none, none⟩,
        [⟨.jstr "achat", 0, some 20000, none, .jnull, 20000, .jnum 12,
          .jbool false, .jbool false, .jstr "", 80⟩],
        [⟨1, .jobj [], .jstr "", "too expensive", "ongoing"⟩]⟩,
       .error (.dbError "disk full")) := rfl

/-- C1 amended: an exception during advisor invocation commits nothing
(round record and session row are both untouched) and propagates
unchanged; but a persistence failure in the final session save happens
*after* the round record was committed, so the record persists while the
session mutation does not (partial commit), and in both cases the
propagated error is the original exception, which does not name the round
number. -/
theorem c1_amended :
    (∀ (s : SessState) (fb : String) (io : InitOfferOutcome) (e : PyErr)
       (env : PersistEnv) (now : ℕ) (cur : Offer),
       s.offers.getLast? = some cur →
       s.neg.negotiation_rounds < s.neg.max_rounds →
       executeRound s fb io (.error e) env now = (s, .error e))
    ∧ (∀ (s : SessState) (fb : String) (io : InitOfferOutcome)
       (rr : List (String × JVal)) (e : PyErr) (now : ℕ) (cur : Offer),
       s.offers.getLast? = some cur →
       s.neg.negotiation_rounds < s.neg.max_rounds →
       truthy (jGetD rr "should_conclude" (.jbool false)) = false →
       executeRound s fb io (.ok rr) ⟨none, some e⟩ now
         = ({ s with rounds := s.rounds ++
              [{ round_number := s.neg.negotiation_rounds + 1
                 agent_proposal := jGetD rr "proposed_offer" (.jobj [])
                 agent_reasoning := jGetD rr "reasoning" (.jstr "")
                 client_feedback := fb
                 round_status := "ongoing" }] }, .error e)) := by
  constructor
  · intro s fb io e env now cur hoff hlt
    have hge : ¬ s.neg.negotiation_rounds ≥ s.neg.max_rounds := by omega
    simp [executeRound, executeRoundCore, hge, hoff]
  · intro s fb io rr e now cur hoff hlt hsc
    have hge : ¬ s.neg.negotiation_rounds ≥ s.neg.max_rounds := by omega
    simp [executeRound, executeRoundCore, hge, hoff, hsc]

/-- Witness for `c1_amended` on a concrete one-offer session. -/
theorem c1_amended_witness :
    ((⟨⟨"in_progress", 0, 10, none, none, none, none⟩,
       [⟨.jstr "achat", 0, some 20000, none, .jnull, 20000, .jnum 12,
         .jbool false, .jbool false, .jstr "", 80⟩], []⟩ :
        SessState).offers.getLast?
      = some ⟨.jstr "achat", 0, some 20000, none, .jnull, 20000, .jnum 12,
          .jbool false, .jbool false, .jstr "", 80⟩)
    ∧ (0 < 10)
    ∧ truthy (jGetD [] "should_conclude" (.jbool false)) = false
    ∧ executeRound ⟨⟨"in_progress", 0, 10, none, none, none, none⟩,
        [⟨.jstr "achat", 0, some 20000, none, .jnull, 20000, .jnum 12,
          .jbool false, .jbool false, .jstr "", 80⟩], []⟩
        "no" (.error .doesNotExist) (.error (.valueError "advisor down"))
        ⟨none, none⟩ 1
      = (⟨⟨"in_progress", 0, 10, none, none, none, none⟩,
         [⟨.jstr "achat", 0, some 20000, none, .jnull, 20000, .jnum 12,
           .jbool false, .jbool false, .jstr "", 80⟩], []⟩,
         .error (.valueError "advisor down"))
    ∧ executeRound ⟨⟨"in_progress", 0, 10, none, none, none, none⟩,
        [⟨.jstr "achat", 0, some 20000, none, .jnull, 20000, .jnum 12,
          .jbool false, .jbool false, .jstr "", 80⟩], []⟩
        "no" (.error .doesNotExist) (.ok []) ⟨none, some (.dbError "lost")⟩ 1
      = (⟨⟨"in_progress", 0, 10, none, none, none, none⟩,
         [⟨.jstr "achat", 0, some 20000, none, .jnull, 20000, .jnum 12,
           .jbool false, .jbool false, .jstr "", 80⟩],
         [⟨1, .jobj [], .jstr "", "no", "ongoing"⟩]⟩,
         .error (.dbError "lost")) :=
  ⟨rfl, by decide, rfl,
   c1_amended.1 ⟨⟨"in_progress", 0, 10, none, none, none, none⟩,
      [⟨.jstr "achat", 0, some 20000, none, .jnull, 20000, .jnum 12,
        .jbool false, .jbool false, .jstr "", 80⟩], []⟩
     "no" (.error .doesNotExist) (.valueError "advisor down") ⟨none, none⟩ 1
     ⟨.jstr "achat", 0, some 20000, none, .jnull, 20000, .jnum 12,
       .jbool false, .jbool false, .jstr "", 80⟩ rfl (by decide),
   c1_amended.2 ⟨⟨"in_progress", 0, 10, none, none, none, none⟩,
      [⟨.jstr "achat", 0, some 20000, none, .jnull, 20000, .jnum 12,
        .jbool false, .jbool false, .jstr "", 80⟩], []⟩
     "no" (.error .doesNotExist) [] (.dbError "lost") 1
     ⟨.jstr "achat", 0, some 20000, none, .jnull, 20000, .jnum 12,
       .jbool false, .jbool false, .jstr "", 80⟩ rfl (by decide) rfl⟩

/-- C2 counterexample: a session with status `concluded` at round 3 of 10.
A further `execute_negotiation_round` call is not a no-op: the round
counter becomes 4 and a fourth round record is created — the guard only
checks the round counter, never the status. -/
theorem c2_counterexample :
    ((⟨⟨"concluded", 3, 10, none, some 289000, some (25/2), some 2⟩,
       [⟨.jstr "achat", 0, some 20000, none, .jnull, 20000, .jnum 12,
         .jbool false, .jbool false, .jstr "", 80⟩],
       [⟨1, .jobj [], .jstr "", "", "ongoing"⟩,
        ⟨2, .jobj [], .jstr "", "", "ongoing"⟩,
        ⟨3, .jobj [], .jstr "", "", "ongoing"⟩]⟩ : SessState).neg.status
      = "concluded")
    ∧ (executeRound ⟨⟨"concluded", 3, 10, none, some 289000, some (25/2), some 2⟩,
        [⟨.jstr "achat", 0, some 20000, none, .jnull, 20000, .jnum 12,
          .jbool false, .jbool false, .jstr "", 80⟩],
        [⟨1, .jobj [], .jstr "", "", "ongoing"⟩,
         ⟨2, .jobj [], .jstr "", "", "ongoing"⟩,
         ⟨3, .jobj [], .jstr "", "", "ongoing"⟩]⟩
        "still thinking" (.error .doesNotExist) (.ok [])
        reliableEnv 9).1.neg.negotiation_rounds = 4
    ∧ (executeRound ⟨⟨"concluded", 3, 10, none, some 289000, some (25/2), some 2⟩,
        [⟨.jstr "achat", 0, some 20000, none, .jnull, 20000, .jnum 12,
          .jbool false, .jbool false, .jstr "", 80⟩],
        [⟨1, .jobj [], .jstr "", "", "ongoing"⟩,
         ⟨2, .jobj [], .jstr "", "", "ongoing"⟩,
         ⟨3, .jobj [], .jstr "", "", "ongoing"⟩]⟩
        "still thinking" (.error .doesNotExist) (.ok [])
        reliableEnv 9).1.rounds.length = 4 :=
  ⟨rfl, rfl, rfl⟩

/-- C2 amended: a call on a `concluded` session is a safe no-op only when
the round counter has reached `max_rounds`; below that bound the call
executes a full further round — incrementing the counter and appending a
round record — while the status stays `concluded` (when the advisor does
not signal conclusion again). -/
theorem c2_amended (s : SessState) (fb : String) (io : InitOfferOutcome)
    (rr : List (String × JVal)) (now : ℕ) (cur : Offer)
    (hst : s.neg.status = "concluded")
    (hlt : s.neg.negotiation_rounds < s.neg.max_rounds)
    (hoff : s.offers.getLast? = some cur)
    (hsc : truthy (jGetD rr "should_conclude" (.jbool false)) = false) :
    (executeRound s fb io (.ok rr) reliableEnv now).1.neg.negotiation_rounds
        = s.neg.negotiation_rounds + 1
    ∧ (executeRound s fb io (.ok rr) reliableEnv now).1.rounds.length
        = s.rounds.length + 1
    ∧ (executeRound s fb io (.ok rr) reliableEnv now).1.neg.status
        = "concluded" := by
  have hge : ¬ s.neg.negotiation_rounds ≥ s.neg.max_rounds := by omega
  simp [executeRound, executeRoundCore, reliableEnv, hge, hoff, hsc, hst]

/-- Witness for `c2_amended` on a concrete concluded session at round 3 of
10. -/
theorem c2_amended_witness :
    ((⟨⟨"concluded", 3, 10, none, some 289000, some (25/2), some 2⟩,
       [⟨.jstr "achat", 0, some 20000, none, .jnull, 20000, .jnum 12,
         .jbool false, .jbool false, .jstr "", 80⟩], []⟩ :
        SessState).neg.status = "concluded")
    ∧ (3 < 10)
    ∧ ((⟨⟨"concluded", 3, 10, none, some 289000, some (25/2), some 2⟩,
       [⟨.jstr "achat", 0, some 20000, none, .jnull, 20000, .jnum 12,
         .jbool false, .jbool false, .jstr "", 80⟩], []⟩ :
        SessState).offers.getLast?
       = some ⟨.jstr "achat", 0, some 20000, none, .jnull, 20000, .jnum 12,
           .jbool false, .jbool false, .jstr "", 80⟩)
    ∧ truthy (jGetD [] "should_conclude" (.jbool false)) = false
    ∧ (executeRound ⟨⟨"concluded", 3, 10, none, some 289000, some (25/2), some 2⟩,
        [⟨.jstr "achat", 0, some 20000, none, .jnull, 20000, .jnum 12,
          .jbool false, .jbool false, .jstr "", 80⟩], []⟩
        "hm" (.error .doesNotExist) (.ok []) reliableEnv 9).1.neg.negotiation_rounds
      = 4 :=
  ⟨rfl, by decide, rfl, rfl,
   (c2_amended ⟨⟨"concluded", 3, 10, none, some 289000, some (25/2), some 2⟩,
      [⟨.jstr "achat", 0, some 20000, none, .jnull, 20000, .jnum 12,
        .jbool false, .jbool false, .jstr "", 80⟩], []⟩
     "hm" (.error .doesNotExist) [] 9
     ⟨.jstr "achat", 0, some 20000, none, .jnull, 20000, .jnum 12,
       .jbool false, .jbool false, .jstr "", 80⟩
     rfl (by decide) rfl rfl).1⟩

/-- C4 counterexample: a non-numeric advisor `final_price` (the string
"not a number") makes the conclusion path raise `InvalidOperation` instead
of defaulting to 0; and in a run where `final_price`/`margin` are simply
missing, the session concludes with `final_price = 0` while the returned
dictionary is exactly the five fixed entries — no flag distinguishes the
defaulted zero from a confirmed zero. -/
theorem c4_counterexample :
    (executeRound ⟨⟨"in_progress", 0, 10, none, none, none, none⟩,
        [⟨.jstr "achat", 0, some 20000, none, .jnull, 20000, .jnum 12,
          .jbool false, .jbool false, .jstr "", 80⟩], []⟩
      "deal" (.error .doesNotExist)
      (.ok [("should_conclude", .jbool true),
            ("final_price", .jstr "not a number")])
      reliableEnv 3).2 = .error .invalidOperation
    ∧ (executeRound ⟨⟨"in_progress", 0, 10, none, none, none, none⟩,
        [⟨.jstr "achat", 0, some 20000, none, .jnull, 20000, .jnum 12,
          .jbool false, .jbool false, .jstr "", 80⟩], []⟩
      "deal" (.error .doesNotExist)
      (.ok [("should_conclude", .jbool true)]) reliableEnv 3).2
      = .ok [("round_number", .jnum 1), ("proposed_offer", .jobj []),
             ("status", .jstr "concluded"), ("should_continue", .jbool false),
             ("confidence", .jnum 0)]
    ∧ (executeRound ⟨⟨"in_progress", 0, 10, none, none, none, none⟩,
        [⟨.jstr "achat", 0, some 20000, none, .jnull, 20000, .jnum 12,
          .jbool false, .jbool false, .jstr "", 80⟩], []⟩
      "deal" (.error .doesNotExist)
      (.ok [("should_conclude", .jbool true)]) reliableEnv 3).1.neg.final_price
      = some 0 :=
  ⟨rfl, rfl, rfl⟩

/-- C4 amended: when the advisor signals conclusion and both coercions
succeed, the session is committed `concluded` with `final_price` and
`margin_achieved` set to the coerced values (missing fields coerce through
the default 0) and the end timestamp set, and the returned dictionary
reports status `concluded`; non-numeric values raise instead of
defaulting, and no flag marks defaulted zeros (see the counterexample). -/
theorem c4_amended (s : SessState) (fb : String) (io : InitOfferOutcome)
    (rr : List (String × JVal)) (now : ℕ) (cur : Offer) (fp mg : ℚ)
    (hlt : s.neg.negotiation_rounds < s.neg.max_rounds)
    (hoff : s.offers.getLast? = some cur)
    (hsc : truthy (jGetD rr "should_conclude" (.jbool false)) = true)
    (hfp : pyDecimal (jGetD rr "final_price" (.jnum 0)) = .ok fp)
    (hmg : pyDecimal (jGetD rr "margin" (.jnum 0)) = .ok mg) :
    (executeRound s fb io (.ok rr) reliableEnv now).1.neg.status = "concluded"
    ∧ (executeRound s fb io (.ok rr) reliableEnv now).1.neg.final_price
        = some fp
    ∧ (executeRound s fb io (.ok rr) reliableEnv now).1.neg.margin_achieved
        = some mg
    ∧ (executeRound s fb io (.ok rr) reliableEnv now).1.neg.ended_at = some now
    ∧ (executeRound s fb io (.ok rr) reliableEnv now).2
        = .ok [("round_number", .jnum ((s.neg.negotiation_rounds + 1 : ℕ) : ℚ)),
               ("proposed_offer", jGetD rr "proposed_offer" (.jobj [])),
               ("status", .jstr "concluded"),
               ("should_continue", .jbool false),
               ("confidence", jGetD rr "confidence_score" (.jnum 0))] := by
  have hge : ¬ s.neg.negotiation_rounds ≥ s.neg.max_rounds := by omega
  simp [executeRound, executeRoundCore, reliableEnv, hge, hoff, hsc, hfp, hmg]

/-- Witness for `c4_amended`: the spec's Scenario D — the advisor signals
`should_conclude` with `final_price` 289000 and `margin` 12.5; the session
concludes with those values and an end timestamp. -/
theorem c4_amended_witness :
    (0 < 10)
    ∧ ((⟨⟨"in_progress", 0, 10, none, none, none, none⟩,
        [⟨.jstr "achat", 0, some 20000, none, .jnull, 20000, .jnum 12,
          .jbool false, .jbool false, .jstr "", 80⟩], []⟩ :
         SessState).offers.getLast?
       = some ⟨.jstr "achat", 0, some 20000, none, .jnull, 20000, .jnum 12,
           .jbool false, .jbool false, .jstr "", 80⟩)
    ∧ truthy (jGetD [("should_conclude", .jbool true),
        ("final_price", .jnum 289000), ("margin", .jnum (25/2))]
        "should_conclude" (.jbool false)) = true
    ∧ pyDecimal (jGetD [("should_conclude", .jbool true),
        ("final_price", .jnum 289000), ("margin", .jnum (25/2))]
        "final_price" (.jnum 0)) = .ok 289000
    ∧ pyDecimal (jGetD [("should_conclude", .jbool true),
        ("final_price", .jnum 289000), ("margin", .jnum (25/2))]
        "margin" (.jnum 0)) = .ok (25/2)
    ∧ ((executeRound ⟨⟨"in_progress", 0, 10, none, none, none, none⟩,
        [⟨.jstr "achat", 0, some 20000, none, .jnull, 20000, .jnum 12,
          .jbool false, .jbool false, .jstr "", 80⟩], []⟩
        "yes" (.error .doesNotExist)
        (.ok [("should_conclude", .jbool true), ("final_price", .jnum 289000),
              ("margin", .jnum (25/2))]) reliableEnv 3).1.neg.status
          = "concluded"
       ∧ (executeRound ⟨⟨"in_progress", 0, 10, none, none, none, none⟩,
        [⟨.jstr "achat", 0, some 20000, none, .jnull, 20000, .jnum 12,
          .jbool false, .jbool false, .jstr "", 80⟩], []⟩
        "yes" (.error .doesNotExist)
        (.ok [("should_conclude", .jbool true), ("final_price", .jnum 289000),
              ("margin", .jnum (25/2))]) reliableEnv 3).1.neg.final_price
          = some 289000
       ∧ (executeRound ⟨⟨"in_progress", 0, 10, none, none, none, none⟩,
        [⟨.jstr "achat", 0, some 20000, none, .jnull, 20000, .jnum 12,
          .jbool false, .jbool false, .jstr "", 80⟩], []⟩
        "yes" (.error .doesNotExist)
        (.ok [("should_conclude", .jbool true), ("final_price", .jnum 289000),
              ("margin", .jnum (25/2))]) reliableEnv 3).1.neg.margin_achieved
          = some (25/2)
       ∧ (executeRound ⟨⟨"in_progress", 0, 10, none, none, none, none⟩,
        [⟨.jstr "achat", 0, some 20000, none, .jnull, 20000, .jnum 12,
          .jbool false, .jbool false, .jstr "", 80⟩], []⟩
        "yes" (.error .doesNotExist)
        (.ok [("should_conclude", .jbool true), ("final_price", .jnum 289000),
              ("margin", .jnum (25/2))]) reliableEnv 3).1.neg.ended_at
          = some 3) :=
  ⟨by decide, rfl, rfl, rfl, rfl,
   (c4_amended ⟨⟨"in_progress", 0, 10, none, none, none, none⟩,
      [⟨.jstr "achat", 0, some 20000, none, .jnull, 20000, .jnum 12,
        .jbool false, .jbool false, .jstr "", 80⟩], []⟩
     "yes" (.error .doesNotExist)
     [("should_conclude", .jbool true), ("final_price", .jnum 289000),
      ("margin", .jnum (25/2))] 3
     ⟨.jstr "achat", 0, some 20000, none, .jnull, 20000, .jnum 12,
       .jbool false, .jbool false, .jstr "", 80⟩
     289000 (25/2) (by decide) rfl rfl rfl rfl).1,
   (c4_amended ⟨⟨"in_progress", 0, 10, none, none, none, none⟩,
      [⟨.jstr "achat", 0, some 20000, none, .jnull, 20000, .jnum 12,
        .jbool false, .jbool false, .jstr "", 80⟩], []⟩
     "yes" (.error .doesNotExist)
     [("should_conclude", .jbool true), ("final_price", .jnum 289000),
      ("margin", .jnum (25/2))] 3
     ⟨.jstr "achat", 0, some 20000, none, .jnull, 20000, .jnum 12,
       .jbool false, .jbool false, .jstr "", 80⟩
     289000 (25/2) (by decide) rfl rfl rfl rfl).2.1,
   (c4_amended ⟨⟨"in_progress", 0, 10, none, none, none, none⟩,
      [⟨.jstr "achat", 0, some 20000, none, .jnull, 20000, .jnum 12,
        .jbool false, .jbool false, .jstr "", 80⟩], []⟩
     "yes" (.error .doesNotExist)
     [("should_conclude", .jbool true), ("final_price", .jnum 289000),
      ("margin", .jnum (25/2))] 3
     ⟨.jstr "achat", 0, some 20000, none, .jnull, 20000, .jnum 12,
       .jbool false, .jbool false, .jstr "", 80⟩
     289000 (25/2) (by decide) rfl rfl rfl rfl).2.2.1,
   (c4_amended ⟨⟨"in_progress", 0, 10, none, none, none, none⟩,
      [⟨.jstr "achat", 0, some 20000, none, .jnull, 20000, .jnum 12,
        .jbool false, .jbool false, .jstr "", 80⟩], []⟩
     "yes" (.error .doesNotExist)
     [("should_conclude", .jbool true), ("final_price", .jnum 289000),
      ("margin", .jnum (25/2))] 3
     ⟨.jstr "achat", 0, some 20000, none, .jnull, 20000, .jnum 12,
       .jbool false, .jbool false, .jstr "", 80⟩
     289000 (25/2) (by decide) rfl rfl rfl rfl).2.2.2.1⟩

/-! ## Round-counter and round-record invariants (C3) -/

lemma executeRoundCore_ok_inv {st : SessState} {neg1 : Negotiation}
    {fb : String} {adv : AdvisorOutcome} {env : PersistEnv} {now : ℕ}
    {s' : SessState} {r : List (String × JVal)}
    (h : executeRoundCore st neg1 fb adv env now = (s', .ok r)) :
    s'.neg.negotiation_rounds = neg1.negotiation_rounds ∧
    s'.neg.max_rounds = neg1.max_rounds ∧
    ∃ rec, rec.round_number = neg1.negotiation_rounds ∧
      s'.rounds = st.rounds ++ [rec] := by
  unfold executeRoundCore at h
  repeat' split at h
  all_goals
    rw [Prod.mk.injEq] at h
    obtain ⟨h1, h2⟩ := h
    first
    | (subst h1; exact ⟨rfl, rfl, ⟨_, rfl, rfl⟩⟩)
    | cases h2

lemma executeRound_ok_cases {s : SessState} {fb : String}
    {io : InitOfferOutcome} {adv : AdvisorOutcome} {env : PersistEnv}
    {now : ℕ} {s' : SessState} {r : List (String × JVal)}
    (h : executeRound s fb io adv env now = (s', .ok r)) :
    s' = s ∨
    (s.neg.negotiation_rounds < s.neg.max_rounds ∧
     s'.neg.negotiation_rounds = s.neg.negotiation_rounds + 1 ∧
     s'.neg.max_rounds = s.neg.max_rounds ∧
     ∃ rec, rec.round_number = s.neg.negotiation_rounds + 1 ∧
       s'.rounds = s.rounds ++ [rec]) := by
  unfold executeRound at h
  by_cases hge : s.neg.negotiation_rounds ≥ s.neg.max_rounds
  · rw [if_pos hge] at h
    rw [Prod.mk.injEq] at h
    exact Or.inl h.1.symm
  · rw [if_neg hge] at h
    have hlt : s.neg.negotiation_rounds < s.neg.max_rounds := by omega
    split at h
    · split at h
      · rw [Prod.mk.injEq] at h
        cases h.2
      · have hc := executeRoundCore_ok_inv h
        exact Or.inr ⟨hlt, hc.1, hc.2.1, hc.2.2⟩
    · have hc := executeRoundCore_ok_inv h
      exact Or.inr ⟨hlt, hc.1, hc.2.1, hc.2.2⟩

lemma executeRoundCore_neg_cases (st : SessState) (neg1 : Negotiation)
    (fb : String) (adv : AdvisorOutcome) (env : PersistEnv) (now : ℕ) :
    (executeRoundCore st neg1 fb adv env now).1.neg = st.neg ∨
    ((executeRoundCore st neg1 fb adv env now).1.neg.negotiation_rounds
        = neg1.negotiation_rounds ∧
     (executeRoundCore st neg1 fb adv env now).1.neg.max_rounds
        = neg1.max_rounds) := by
  unfold executeRoundCore
  repeat' split
  all_goals first | exact Or.inl rfl | exact Or.inr ⟨rfl, rfl⟩

lemma executeRound_state_cases (s : SessState) (fb : String)
    (io : InitOfferOutcome) (adv : AdvisorOutcome) (env : PersistEnv)
    (now : ℕ) :
    (executeRound s fb io adv env now).1.neg = s.neg ∨
    (s.neg.negotiation_rounds < s.neg.max_rounds ∧
     (executeRound s fb io adv env now).1.neg.negotiation_rounds
        = s.neg.negotiation_rounds + 1 ∧
     (executeRound s fb io adv env now).1.neg.max_rounds
        = s.neg.max_rounds) := by
  unfold executeRound
  by_cases hge : s.neg.negotiation_rounds ≥ s.neg.max_rounds
  · rw [if_pos hge]
    exact Or.inl rfl
  · rw [if_neg hge]
    have hlt : s.neg.negotiation_rounds < s.neg.max_rounds := by omega
    split
    · split
      · exact Or.inl rfl
      · rcases executeRoundCore_neg_cases _ _ _ _ _ _ with h | h
        · exact Or.inl h
        · exact Or.inr ⟨hlt, h.1, h.2⟩
    · rcases executeRoundCore_neg_cases _ _ _ _ _ _ with h | h
      · exact Or.inl h
      · exact Or.inr ⟨hlt, h.1, h.2⟩

lemma reachableOk_invariant {s : SessState} (h : ReachableOk s) :
    s.neg.negotiation_rounds ≤ s.neg.max_rounds ∧
    s.rounds.map (fun rec => rec.round_number)
      = List.range' 1 s.neg.negotiation_rounds := by
  induction h with
  | init tiv =>
    exact ⟨by simp [initiateNegotiation], by simp [initiateNegotiation]⟩
  | step hreach hstep ih =>
    obtain ⟨fb, io, adv, env, now, r, heq⟩ := hstep
    rcases executeRound_ok_cases heq with
      rfl | ⟨hlt, hcnt, hmax, rec, hrec, hrounds⟩
    · exact ih
    · refine ⟨by omega, ?_⟩
      rw [hrounds, List.map_append, ih.2, hcnt]
      simp [hrec, List.range'_1_concat, Nat.add_comm]

/-- C3 counterexample: the sequence initiate(); executeRound();
executeRound() in which the first round's advisor result carries a
non-numeric `final_price` — the round record (number 1) is committed but
the session counter increment is lost when the coercion raises before
`save()` — leaves the session with two round records both numbered 1:
not strictly increasing, so not gap-free either. -/
theorem c3_counterexample :
    ((executeRound
        (executeRound (initiateNegotiation none) "offer?"
          (.ok ⟨.jstr "achat", 0, some 20000, none, .jnull, 20000, .jnum 12,
                .jbool false, .jbool false, .jstr "", 80⟩)
          (.ok [("should_conclude", .jbool true), ("final_price", .jstr "abc")])
          reliableEnv 3).1
        "again" (.error .doesNotExist) (.ok []) reliableEnv 4).1.rounds.map
      (fun rec => rec.round_number) = [1, 1])
    ∧ ¬ List.Pairwise (· < ·)
        ((executeRound
          (executeRound (initiateNegotiation none) "offer?"
            (.ok ⟨.jstr "achat", 0, some 20000, none, .jnull, 20000, .jnum 12,
                  .jbool false, .jbool false, .jstr "", 80⟩)
            (.ok [("should_conclude", .jbool true), ("final_price", .jstr "abc")])
            reliableEnv 3).1
          "again" (.error .doesNotExist) (.ok []) reliableEnv 4).1.rounds.map
        (fun rec => rec.round_number)) := by
  have h1 : ((executeRound
        (executeRound (initiateNegotiation none) "offer?"
          (.ok ⟨.jstr "achat", 0, some 20000, none, .jnull, 20000, .jnum 12,
                .jbool false, .jbool false, .jstr "", 80⟩)
          (.ok [("should_conclude", .jbool true), ("final_price", .jstr "abc")])
          reliableEnv 3).1
        "again" (.error .doesNotExist) (.ok []) reliableEnv 4).1.rounds.map
      (fun rec => rec.round_number) = [1, 1]) := rfl
  refine ⟨h1, ?_⟩
  rw [h1]
  decide

/-- C3 amended: across arbitrary calls (any advisor and persistence
outcomes) the committed round counter is monotonically non-decreasing,
`max_rounds` is never changed and the counter never exceeds `max_rounds`;
and for every state reached from initiation through calls that returned
normally (no exception), the round records are exactly the strictly
increasing gap-free sequence 1..counter.  A call that raises after
creating its round record breaks the record invariant (see the
counterexample). -/
theorem c3_amended :
    (∀ (s : SessState) (fb : String) (io : InitOfferOutcome)
       (adv : AdvisorOutcome) (env : PersistEnv) (now : ℕ),
       s.neg.negotiation_rounds
           ≤ (executeRound s fb io adv env now).1.neg.negotiation_rounds
       ∧ (executeRound s fb io adv env now).1.neg.max_rounds
           = s.neg.max_rounds
       ∧ (s.neg.negotiation_rounds ≤ s.neg.max_rounds →
          (executeRound s fb io adv env now).1.neg.negotiation_rounds
            ≤ s.neg.max_rounds))
    ∧ (∀ s : SessState, ReachableOk s →
        s.neg.negotiation_rounds ≤ s.neg.max_rounds
        ∧ s.rounds.map (fun rec => rec.round_number)
            = List.range' 1 s.neg.negotiation_rounds) := by
  constructor
  · intro s fb io adv env now
    rcases executeRound_state_cases s fb io adv env now with
      heq | ⟨hlt, hcnt, hmax⟩
    · rw [heq]
      exact ⟨le_refl _, rfl, fun hb => hb⟩
    · exact ⟨by omega, hmax, fun _ => by omega⟩
  · exact fun s h => reachableOk_invariant h

/-- Witness for `c3_amended` at the state reached by one fully successful
round after initiation: counter 1 ≤ 10 and round records [1] =
`range' 1 1`. -/
theorem c3_amended_witness :
    ReachableOk (⟨⟨"in_progress", 1, 10, none, none, none, none⟩,
      [⟨.jstr "achat", 0, some 20000, none, .jnull, 20000, .jnum 12,
        .jbool false, .jbool false, .jstr "", 80⟩],
      [⟨1, .jobj [], .jstr "", "", "ongoing"⟩]⟩ : SessState)
    ∧ ((⟨⟨"in_progress", 1, 10, none, none, none, none⟩,
      [⟨.jstr "achat", 0, some 20000, none, .jnull, 20000, .jnum 12,
        .jbool false, .jbool false, .jstr "", 80⟩],
      [⟨1, .jobj [], .jstr "", "", "ongoing"⟩]⟩ :
        SessState).neg.negotiation_rounds
        ≤ (⟨⟨"in_progress", 1, 10, none, none, none, none⟩,
      [⟨.jstr "achat", 0, some 20000, none, .jnull, 20000, .jnum 12,
        .jbool false, .jbool false, .jstr "", 80⟩],
      [⟨1, .jobj [], .jstr "", "", "ongoing"⟩]⟩ :
        SessState).neg.max_rounds
       ∧ (⟨⟨"in_progress", 1, 10, none, none, none, none⟩,
      [⟨.jstr "achat", 0, some 20000, none, .jnull, 20000, .jnum 12,
        .jbool false, .jbool false, .jstr "", 80⟩],
      [⟨1, .jobj [], .jstr "", "", "ongoing"⟩]⟩ :
        SessState).rounds.map (fun rec => rec.round_number)
          = List.range' 1 (⟨⟨"in_progress", 1, 10, none, none, none, none⟩,
      [⟨.jstr "achat", 0, some 20000, none, .jnull, 20000, .jnum 12,
        .jbool false, .jbool false, .jstr "", 80⟩],
      [⟨1, .jobj [], .jstr "", "", "ongoing"⟩]⟩ :
        SessState).neg.negotiation_rounds) :=
  have hreach : ReachableOk (⟨⟨"in_progress", 1, 10, none, none, none, none⟩,
      [⟨.jstr "achat", 0, some 20000, none, .jnull, 20000, .jnum 12,
        .jbool false, .jbool false, .jstr "", 80⟩],
      [⟨1, .jobj [], .jstr "", "", "ongoing"⟩]⟩ : SessState) :=
    ReachableOk.step (ReachableOk.init none)
      ⟨"", .ok ⟨.jstr "achat", 0, some 20000, none, .jnull, 20000, .jnum 12,
          .jbool false, .jbool false, .jstr "", 80⟩,
       .ok [], reliableEnv, 1,
       [("round_number", .jnum 1), ("proposed_offer", .jobj []),
        ("status", .jstr "in_progress"), ("should_continue", .jbool true),
        ("confidence", .jnum 0)], rfl⟩
  ⟨hreach, c3_amended.2 _ hreach⟩

end Genfive
